import Mathlib

/-!
Verification of the instance-lifecycle core of `src/src/SweetAlert.js`
(the koad/io-modal repository): singleton eviction, parameter merging,
freezing, the focus-acquisition chain, the auto-dismiss timer and the
static facade, shallowly embedded in Lean.

External collaborators (`utils/Timer.js`, `instanceMethods.js`,
`keydown-handler.js`, `utils/params.js`, ...) are not under `src/`;
where a claim depends on them the corresponding definition is modelled
from the spec and marked as such in its doc comment.
-/

namespace IoModal

/-- Closed set of dismiss reasons, from `utils/DismissReason.js` as used at
the call sites in `SweetAlert.js` (`DismissReason.close`, `dismissWith("timer")`). -/
inductive DismissReason where
  | cancel
  | backdrop
  | close
  | esc
  | timer
deriving DecidableEq, Repr

/-- The shape of a settled result, `{ isConfirmed, isDenied, isDismissed, dismiss }`.
Omitted boolean fields default to `false`, omitted `dismiss` to `none`
(JS `undefined`). -/
structure SweetAlertResult where
  isConfirmed : Bool := false
  isDenied : Bool := false
  isDismissed : Bool := false
  dismiss : Option DismissReason := none
deriving DecidableEq, Repr

/-! ## Eviction in `_main` (SweetAlert.js lines 53–90)

An instance is identified by a numeric id; the only per-instance field the
eviction block reads is `isAwaitingPromise` (line 58). -/

/-- The per-instance data read by the eviction block of `_main`. -/
structure InstanceRef where
  id : Nat
  isAwaitingPromise : Bool
deriving DecidableEq, Repr

/-- The fields of the module singleton `globalState` that `_main` touches:
`currentInstance` (lines 56–68) and `timeout` (lines 75–78). A timer is
represented only by whether one is armed. -/
structure GlobalStateModel where
  currentInstance : Option InstanceRef
  timeoutArmed : Bool
deriving DecidableEq, Repr

/-- Observable events emitted while `_main` runs, in program order:
`destroyEvt a` for `globalState.currentInstance._destroy()` (line 59),
`resolveEvt a r` for `swalPromiseResolve(r)` (line 61),
`installEvt b` for `globalState.currentInstance = currentInstance` (line 68). -/
inductive MainEvent where
  | destroyEvt (id : Nat)
  | resolveEvt (id : Nat) (r : SweetAlertResult)
  | installEvt (id : Nat)
deriving DecidableEq, Repr

/-- Whether an event belongs to the eviction of a prior instance
(destruction or forced settlement), as opposed to installation. -/
def MainEvent.isEviction : MainEvent → Bool
  | .destroyEvt _ => true
  | .resolveEvt _ _ => true
  | .installEvt _ => false

/-- Lines 56–68 of `SweetAlert.js`: if `globalState.currentInstance` exists,
read its `isAwaitingPromise`, destroy it, and resolve its promise with
`{ isDismissed: true }` only when it was not awaiting; then install the new
instance as `globalState.currentInstance`. Returns the updated global state
together with the emitted events in program order.
(`dom.isModal()`/`unsetAriaHidden()` on lines 63–65 are render-layer calls
with no effect on this state.) -/
def evictAndInstall (s : GlobalStateModel) (nw : InstanceRef) :
    GlobalStateModel × List MainEvent :=
  match s.currentInstance with
  | some a =>
    let evictionEvents :=
      .destroyEvt a.id ::
        (if a.isAwaitingPromise then []
         else [.resolveEvt a.id { isDismissed := true }])
    ({ s with currentInstance := some nw },
      evictionEvents ++ [.installEvt nw.id])
  | none =>
    ({ s with currentInstance := some nw }, [.installEvt nw.id])

/-! ## Parameter preparation (`prepareParams`, SweetAlert.js lines 161–173)

A configuration object is modelled with the fields the controller core
reads, plus three generic scalar entries `a`, `b`, `c` standing for
arbitrary further options; an absent JS property is `none`. -/

/-- A nested `showClass`/`hideClass` sub-object. Its possible keys are the
ones appearing in the source (`backdrop` at line 168) and in the library
defaults (`popup`, `icon`); an absent key is `none`. -/
structure SubObj where
  popup : Option String := none
  backdrop : Option String := none
  icon : Option String := none
deriving DecidableEq, Repr

/-- A configuration object (`SweetAlertOptions`). `a`/`b`/`c` are generic
scalar options; the named fields are the ones `SweetAlert.js` reads. -/
structure ParamsObj where
  a : Option Int := none
  b : Option Int := none
  c : Option Int := none
  animation : Option Bool := none
  timer : Option Nat := none
  timerProgressBar : Option Bool := none
  toast : Option Bool := none
  allowEnterKey : Option Bool := none
  focusConfirm : Option Bool := none
  focusDeny : Option Bool := none
  focusCancel : Option Bool := none
  showClass : Option SubObj := none
  hideClass : Option SubObj := none
deriving DecidableEq, Repr

/-- JS `Object.assign` semantics for one property: a property present on a
later source overwrites the accumulated one; an absent property leaves it. -/
def jsOverride (base src : Option α) : Option α :=
  match src with
  | some v => some v
  | none => base

/-- JS `Object.assign(target, src)` on two configuration objects: each own
property of `src` overwrites the one of `target`. -/
def ParamsObj.assign (base src : ParamsObj) : ParamsObj where
  a := jsOverride base.a src.a
  b := jsOverride base.b src.b
  c := jsOverride base.c src.c
  animation := jsOverride base.animation src.animation
  timer := jsOverride base.timer src.timer
  timerProgressBar := jsOverride base.timerProgressBar src.timerProgressBar
  toast := jsOverride base.toast src.toast
  allowEnterKey := jsOverride base.allowEnterKey src.allowEnterKey
  focusConfirm := jsOverride base.focusConfirm src.focusConfirm
  focusDeny := jsOverride base.focusDeny src.focusDeny
  focusCancel := jsOverride base.focusCancel src.focusCancel
  showClass := jsOverride base.showClass src.showClass
  hideClass := jsOverride base.hideClass src.hideClass

/-- JS `Object.assign({}, sources...)`: fold the sources, later ones winning,
starting from the empty object literal. -/
def objectAssignParams (sources : List ParamsObj) : ParamsObj :=
  sources.foldl ParamsObj.assign {}

/-- JS `Object.assign(target, src)` on sub-objects. -/
def SubObj.assign (base src : SubObj) : SubObj where
  popup := jsOverride base.popup src.popup
  backdrop := jsOverride base.backdrop src.backdrop
  icon := jsOverride base.icon src.icon

/-- JS `Object.assign` with a possibly-`undefined` source: JS ignores an
`undefined` source argument. -/
def SubObj.assignOpt (base : SubObj) (src : Option SubObj) : SubObj :=
  match src with
  | some s => base.assign s
  | none => base

/-- Lines 161–173 of `SweetAlert.js` (`prepareParams`).
`defaultParams` is the built-in default configuration imported from
`utils/params.js` and `templateParams` is `getTemplateParams(userParams)`,
the declarative markup-derived configuration (both external to `src/`, so
they enter as parameters here).
Line 163: `Object.assign({}, defaultParams, mixinParams, templateParams,
userParams)`; lines 164–165 re-merge the nested `showClass`/`hideClass`
key-by-key over the defaults; lines 166–171 override both when the merged
`animation` is literally `false`. -/
def prepareParams (defaultParams templateParams : ParamsObj)
    (userParams mixinParams : ParamsObj) : ParamsObj :=
  let params :=
    objectAssignParams [defaultParams, mixinParams, templateParams, userParams]
  let params := { params with
    showClass :=
      some (SubObj.assignOpt (SubObj.assignOpt {} defaultParams.showClass)
        params.showClass) }
  let params := { params with
    hideClass :=
      some (SubObj.assignOpt (SubObj.assignOpt {} defaultParams.hideClass)
        params.hideClass) }
  if params.animation = some false then
    { params with
      showClass := some { backdrop := some "swal2-noanimation" },
      hideClass := some {} }
  else
    params

/-! ## Freezing of the effective configuration (SweetAlert.js lines 70–72)

JS `Object.freeze` is shallow: it marks only the object it receives; the
objects reachable through its properties keep their own (un)frozen status.
The model carries the configuration value together with the frozen flag of
the top-level object and of the two nested class objects. -/

/-- An attached effective configuration with JS frozen-ness bookkeeping:
the top-level `innerParams` object and the two sub-objects its `showClass`
and `hideClass` properties reference each have their own frozen flag. -/
structure FrozenConfig where
  params : ParamsObj
  topFrozen : Bool
  showClassObjFrozen : Bool
  hideClassObjFrozen : Bool
deriving DecidableEq, Repr

/-- JS `Object.freeze(o)`: marks `o` itself frozen; the objects referenced
by the properties of `o` are untouched (shallow freeze). -/
def objectFreeze (c : FrozenConfig) : FrozenConfig :=
  { c with topFrozen := true }

/-- Lines 70–72 of `_main`: `prepareParams` builds `innerParams`, whose
nested `showClass`/`hideClass` objects were freshly created at lines
164–165 and 167–170 (hence unfrozen), and then `Object.freeze(innerParams)`
runs on the top-level object. -/
def attachInnerParams (inner : ParamsObj) : FrozenConfig :=
  objectFreeze
    { params := inner, topFrozen := false,
      showClassObjFrozen := false, hideClassObjFrozen := false }

/-- An attempted in-place write `innerParams.animation = v` after attach:
under JS semantics the assignment is ignored when the target object is
frozen, and takes effect otherwise. -/
def trySetAnimation (c : FrozenConfig) (v : Option Bool) : FrozenConfig :=
  if c.topFrozen then c
  else { c with params := { c.params with animation := v } }

/-- An attempted in-place write `innerParams.showClass.backdrop = v` after
attach: the target object of the assignment is the nested `showClass`
object, so only its own frozen flag matters. Writing through an
`undefined` property would throw, leave the state unchanged in that case. -/
def trySetShowClassBackdrop (c : FrozenConfig) (v : Option String) : FrozenConfig :=
  if c.showClassObjFrozen then c
  else
    match c.params.showClass with
    | some sc =>
      { c with params := { c.params with showClass := some { sc with backdrop := v } } }
    | none => c

/-- Modelled from the spec: `update(partialConfig)` lives in
`instanceMethods.js`, which is not under `src/`. Spec §3 and §4.1: updates
"replace it with a new merged object" "without changing identity or
re-settling the result" — the new effective configuration is a fresh object
built by merging the patch over the old value and attached in place of the
old one, which is never written through. -/
def specUpdate (c : FrozenConfig) (patch : ParamsObj) : FrozenConfig :=
  attachInnerParams (ParamsObj.assign c.params patch)

/-! ## Focus acquisition (SweetAlert.js lines 236–301)

The DOM facts `initFocus` consults are: visibility of the three action
buttons, the node list returned by `querySelectorAll("[autofocus]")`, and
whether the popup contains any focusable element. -/

/-- JS truthiness of a possibly-absent boolean option (`undefined` is
falsy). -/
def truthy : Option Bool → Bool
  | some b => b
  | none => false

/-- Visibility of the three action buttons of the DOM cache, as reported by
`dom.isVisible`. -/
structure ButtonsVisible where
  deny : Bool
  cancel : Bool
  confirm : Bool
deriving DecidableEq, Repr

/-- Which button `focusButton` focused. -/
inductive FocusTarget where
  | denyButton
  | cancelButton
  | confirmButton
deriving DecidableEq, Repr

/-- Lines 278–295 (`focusButton`): deny first, then cancel, then confirm;
each directive fires only when set (truthy) and its button visible; the
first hit focuses that button and returns `true`. `none` models the
`return false` path where nothing was focused. -/
def focusButton (innerParams : ParamsObj) (vis : ButtonsVisible) :
    Option FocusTarget :=
  if truthy innerParams.focusDeny && vis.deny then some .denyButton
  else if truthy innerParams.focusCancel && vis.cancel then some .cancelButton
  else if truthy innerParams.focusConfirm && vis.confirm then some .confirmButton
  else none

/-- A node of `domCache.popup.querySelectorAll("[autofocus]")`: whether it
is an `HTMLElement` and whether `dom.isVisible` holds for it. -/
structure AutofocusNode where
  isHtmlElement : Bool
  visible : Bool
deriving DecidableEq, Repr

/-- Whether the loop body of `focusAutofocus` (line 265) accepts the node:
`autofocusElement instanceof HTMLElement && dom.isVisible(autofocusElement)`. -/
def AutofocusNode.eligible (n : AutofocusNode) : Bool :=
  n.isHtmlElement && n.visible

/-- The `for..of` loop of lines 264–269, tracking the index of the node
under consideration. -/
def focusAutofocusLoop : List AutofocusNode → Nat → Option Nat
  | [], _ => none
  | n :: rest, i =>
    if n.eligible then some i else focusAutofocusLoop rest (i + 1)

/-- Lines 262–271 (`focusAutofocus`): focus the first autofocus node that
is a visible `HTMLElement`; `some i` models focusing the node at index `i`
and returning `true`, `none` models returning `false`. -/
def focusAutofocus (nodes : List AutofocusNode) : Option Nat :=
  focusAutofocusLoop nodes 0

/-- What `initFocus` did. -/
inductive FocusOutcome where
  | noFocusSteal
  | blurredActive
  | autofocusNode (i : Nat)
  | buttonFocused (t : FocusTarget)
  | firstFocusable
  | noFocusableNoOp
deriving DecidableEq, Repr

/-- Modelled from the spec: `setFocus(-1, 1)` lives in
`keydown-handler.js`, which is not under `src/`. Spec §4.5 step 5: "focus
the first focusable element inside the dialog, or no-op if none exists". -/
def setFocusModel (popupHasFocusable : Bool) : FocusOutcome :=
  if popupHasFocusable then .firstFocusable else .noFocusableNoOp

/-- Lines 236–256 (`initFocus`): return at once for a toast; else blur the
active element and stop when `callIfFunction(innerParams.allowEnterKey)` is
falsy (the `allowEnterKey` field here stands for that evaluated value, as
`callIfFunction` of `utils/utils.js` is outside `src/`); else try
`focusAutofocus`, then `focusButton`, then `setFocus(-1, 1)`. -/
def initFocus (innerParams : ParamsObj) (autofocusNodes : List AutofocusNode)
    (vis : ButtonsVisible) (popupHasFocusable : Bool) : FocusOutcome :=
  if truthy innerParams.toast then .noFocusSteal
  else if !truthy innerParams.allowEnterKey then .blurredActive
  else
    match focusAutofocus autofocusNodes with
    | some i => .autofocusNode i
    | none =>
      match focusButton innerParams vis with
      | some t => .buttonFocused t
      | none => setFocusModel popupHasFocusable

/-! ## Auto-dismiss timer (SweetAlert.js lines 114–116 and 202–221)

The countdown object itself (`utils/Timer.js`) is outside `src/` and is
modelled from spec §4.3; the arming in `setupTimer`, the callback it is
given, and `dismissWith` are translated from the source. Time advances in
whole milliseconds with no user interaction. -/

/-- Modelled from the spec: the countdown of `utils/Timer.js` (not under
`src/`). Spec §4.3: started with a duration, while running it counts the
elapsed time down and, on expiry, "invokes its callback exactly once and
transitions to `fired`". -/
structure TimerModel where
  remaining : Nat
  running : Bool
  fired : Bool
deriving DecidableEq, Repr

/-- The state observed while one instance with a timer runs with no user
interaction: elapsed milliseconds, the `globalState.timeout` slot, the
settled value and settlement time of the result promise set up by
`swalPromise` (lines 108–153), and how many times the timer callback body
of lines 206–209 has run. -/
structure TimerScenario where
  now : Nat
  timeout : Option TimerModel
  settled : Option SweetAlertResult
  settledAt : Option Nat
  callbackRuns : Nat
deriving DecidableEq, Repr

/-- Lines 114–116 (`dismissWith`): `instance.close({ isDismissed: true,
dismiss })`. `close` lives in `instanceMethods.js` (not under `src/`) and
is modelled from spec §4.1: it "settles the asynchronous-result handle with
the given partial result (filling omitted boolean fields as
false/undefined)", and by spec §5 guarantee (b) the handle settles at most
once, so a second settlement attempt changes nothing. -/
def dismissWith (reason : DismissReason) (s : TimerScenario) : TimerScenario :=
  match s.settled with
  | some _ => s
  | none =>
    { s with
      settled := some { isDismissed := true, dismiss := some reason },
      settledAt := some s.now }

/-- Lines 202–221 (`setupTimer`): when `innerParams.timer` is truthy
(a nonzero duration), arm `globalState.timeout` with a new running timer of
that duration. The `timerProgressBar` branch only drives the render layer.
The callback closed over here is run by `timerTick` below. -/
def setupTimer (innerParams : ParamsObj) (s : TimerScenario) : TimerScenario :=
  match innerParams.timer with
  | some d =>
    if d ≠ 0 then
      { s with timeout := some { remaining := d, running := true, fired := false } }
    else s
  | none => s

/-- One elapsed millisecond with no user interaction. A running, not yet
fired timer counts down; when its remaining time runs out it fires exactly
once (spec §4.3) and its callback from lines 206–209 runs:
`dismissWith("timer")` followed by `delete globalState.timeout`. -/
def timerTick (s : TimerScenario) : TimerScenario :=
  let s := { s with now := s.now + 1 }
  match s.timeout with
  | some t =>
    if t.running && !t.fired then
      if t.remaining ≤ 1 then
        let s := { s with callbackRuns := s.callbackRuns + 1 }
        let s := dismissWith .timer s
        { s with timeout := none }
      else
        { s with timeout := some { t with remaining := t.remaining - 1 } }
    else s
  | none => s

/-- Opening an instance whose effective configuration sets only `timer := d`
at time zero: the promise is pending and `setupTimer` arms the countdown. -/
def openWithTimer (d : Nat) : TimerScenario :=
  setupTimer { timer := some d }
    { now := 0, timeout := none, settled := none, settledAt := none,
      callbackRuns := 0 }

/-- Let `n` milliseconds elapse with no user interaction. -/
def runTicks (s : TimerScenario) : Nat → TimerScenario
  | 0 => s
  | n + 1 => runTicks (timerTick s) n

/-- The scenario state `k` milliseconds into an uninterrupted run of a
timer of duration `d` that has not yet expired. -/
def armedState (d k : Nat) : TimerScenario where
  now := k
  timeout := some { remaining := d - k, running := true, fired := false }
  settled := none
  settledAt := none
  callbackRuns := 0

/-- The scenario state after the timer of duration `d` fired at time `d`,
observed at time `m`: the timeout slot was deleted, the callback ran once,
and the result settled at time `d` with the timer dismissal. -/
def firedState (d m : Nat) : TimerScenario where
  now := m
  timeout := none
  settled := some { isDismissed := true, dismiss := some .timer }
  settledAt := some d
  callbackRuns := 1

/-! ## Static facade (SweetAlert.js lines 20–21, 39, 456–468) -/

/-- The two "current instance" slots, holding instance ids: the
module-level variable `currentInstance` of line 21 — assigned only at line
39 and not exported, so no other module can rebind it — and
`globalState.currentInstance`, the registry slot tracking the open
instance. -/
structure FacadeState where
  moduleCurrentInstance : Option Nat
  globalCurrentInstance : Option Nat
deriving DecidableEq, Repr

/-- What a static facade call returns: the result of the forwarded
instance-method call on the given instance, or JS `null`. -/
inductive StaticCallResult where
  | forwarded (instanceId : Nat)
  | nullResult
deriving DecidableEq, Repr

/-- Lines 462–467: `if (currentInstance && currentInstance[key]) return
currentInstance[key](...args); return null`. `hasMethod` abstracts
`currentInstance[key]` being defined (every `instanceMethods` key is put on
the prototype at lines 436–451). -/
def staticProxyCall (s : FacadeState) (hasMethod : Bool) : StaticCallResult :=
  match s.moduleCurrentInstance with
  | some i => if hasMethod then .forwarded i else .nullResult
  | none => .nullResult

/-- Constructing and opening instance `i`: line 39 assigns the module-level
`currentInstance` and line 68 of `_main` installs the same instance as
`globalState.currentInstance`. -/
def constructStep (i : Nat) (_s : FacadeState) : FacadeState :=
  { moduleCurrentInstance := some i, globalCurrentInstance := some i }

/-- Modelled from the spec: `close` lives in `instanceMethods.js` (not
under `src/`). Spec §4.1: `close` "clears itself from GlobalState if it is
still current". The module-level `currentInstance` binding of
`SweetAlert.js` is module-scoped, unexported and assigned only at line 39,
so no close path can clear it. -/
def closeCurrentStep (s : FacadeState) : FacadeState :=
  { s with globalCurrentInstance := none }

/-! ## Constructor guard (SweetAlert.js lines 33–51) -/

/-- The module-level view the constructor can affect: the module variable
`currentInstance` and the fields of `globalState` that `_main` touches. -/
structure ModuleEnv where
  moduleCurrentInstance : Option Nat
  globalSt : GlobalStateModel
deriving DecidableEq, Repr

/-- The per-instance fields assigned by the constructor (lines 44–50):
`this.params`, `this.isAwaitingPromise` and the private `#promise`; `none`
and `false` mean never assigned. -/
structure CtorInstanceFields where
  params : Option ParamsObj := none
  isAwaitingPromise : Option Bool := none
  promiseCreated : Bool := false
deriving DecidableEq, Repr

/-- Lines 33–51 (the constructor). When `typeof window === "undefined"` it
returns at line 36 before any assignment. Otherwise: line 39 sets the
module variable, lines 42–45 attach `Object.freeze(argsToParams(args))`
(`argsToParams` is a static method outside this file, so its result enters
as the `argsParams` parameter), line 48 sets `isAwaitingPromise := false`,
and line 50 runs `_main`, whose global-state effect is `evictAndInstall`
(lines 56–68) followed by clearing any armed timer (lines 75–78), and
stores the resulting promise. -/
def constructorModel (windowDefined : Bool) (env : ModuleEnv) (newId : Nat)
    (argsParams : ParamsObj) : ModuleEnv × CtorInstanceFields :=
  if windowDefined = false then
    (env, {})
  else
    let env := { env with moduleCurrentInstance := some newId }
    let fields : CtorInstanceFields :=
      { params := some argsParams, isAwaitingPromise := some false,
        promiseCreated := true }
    let nw : InstanceRef := { id := newId, isAwaitingPromise := false }
    let gs := (evictAndInstall env.globalSt nw).1
    let gs := { gs with timeoutArmed := false }
    ({ env with globalSt := gs }, fields)

/-! ## Helper lemmas -/

theorem jsOverride_none_left (x : Option α) : jsOverride none x = x := by
  cases x <;> rfl

theorem jsOverride_none_right (base : Option α) : jsOverride base none = base := rfl

/-! ## Claims -/

/-- C1: on `open` (`_main`) with a current instance `a` registered, `a` is
destroyed immediately (the destroy call is the first emitted event), its
result handle is resolved with `{ isDismissed: true }` if and only if
`a.isAwaitingPromise` was false at eviction, and when it was awaiting no
settlement of its result is forced at all. -/
theorem evict_destroys_and_settles_iff_not_awaiting
    (s : GlobalStateModel) (nw a : InstanceRef)
    (h : s.currentInstance = some a) :
    (evictAndInstall s nw).2.head? = some (.destroyEvt a.id) ∧
    (MainEvent.resolveEvt a.id { isDismissed := true } ∈ (evictAndInstall s nw).2 ↔
      a.isAwaitingPromise = false) ∧
    (a.isAwaitingPromise = true →
      ∀ r, MainEvent.resolveEvt a.id r ∉ (evictAndInstall s nw).2) := by
  cases ha : a.isAwaitingPromise <;>
    simp [evictAndInstall, h, ha]

theorem evict_destroys_and_settles_iff_not_awaiting_witness :
    (GlobalStateModel.mk (some ⟨0, false⟩) false).currentInstance =
      some (⟨0, false⟩ : InstanceRef) ∧
    ((evictAndInstall ⟨some ⟨0, false⟩, false⟩ ⟨1, false⟩).2.head? =
      some (.destroyEvt 0) ∧
    (MainEvent.resolveEvt 0 { isDismissed := true } ∈
      (evictAndInstall ⟨some ⟨0, false⟩, false⟩ ⟨1, false⟩).2 ↔
      (InstanceRef.mk 0 false).isAwaitingPromise = false) ∧
    ((InstanceRef.mk 0 false).isAwaitingPromise = true →
      ∀ r, MainEvent.resolveEvt 0 r ∉
        (evictAndInstall ⟨some ⟨0, false⟩, false⟩ ⟨1, false⟩).2)) :=
  ⟨rfl, evict_destroys_and_settles_iff_not_awaiting ⟨some ⟨0, false⟩, false⟩
    ⟨1, false⟩ ⟨0, false⟩ rfl⟩

/-- C2: the global `currentInstance` slot is a single `Option`-typed cell,
so at most one non-null current instance exists at any time; on every open
the emitted event sequence consists of eviction events (destruction and,
when applicable, the `{ isDismissed: true }` settlement) strictly before
the installation of the new instance, which ends up as the registered
current instance. -/
theorem evictAndInstall_evicts_before_install
    (s : GlobalStateModel) (nw : InstanceRef) :
    (evictAndInstall s nw).1.currentInstance = some nw ∧
    ∃ pre, (evictAndInstall s nw).2 = pre ++ [MainEvent.installEvt nw.id] ∧
      ∀ e ∈ pre, e.isEviction = true := by
  cases hc : s.currentInstance with
  | none =>
    exact ⟨by simp [evictAndInstall, hc], [], by simp [evictAndInstall, hc],
      by simp⟩
  | some a =>
    cases ha : a.isAwaitingPromise
    · refine ⟨by simp [evictAndInstall, hc],
        [.destroyEvt a.id, .resolveEvt a.id { isDismissed := true }], ?_, ?_⟩
      · simp [evictAndInstall, hc, ha]
      · intro e he
        simp only [List.mem_cons, List.not_mem_nil, or_false] at he
        rcases he with rfl | rfl <;> rfl
    · refine ⟨by simp [evictAndInstall, hc], [.destroyEvt a.id], ?_, ?_⟩
      · simp [evictAndInstall, hc, ha]
      · intro e he
        simp only [List.mem_singleton] at he
        subst he
        rfl

/-- C10: constructing with `window` undefined returns before any side
effect — the module-level `currentInstance`, the global state, and the new
per-instance `params`, `isAwaitingPromise` flag and result promise are all
left unset or unchanged. -/
theorem ctor_noop_when_window_undefined
    (env : ModuleEnv) (newId : Nat) (argsParams : ParamsObj) :
    (constructorModel false env newId argsParams).1 = env ∧
    (constructorModel false env newId argsParams).2.params = none ∧
    (constructorModel false env newId argsParams).2.isAwaitingPromise = none ∧
    (constructorModel false env newId argsParams).2.promiseCreated = false := by
  simp [constructorModel]

/-- C4: parameter preparation merges the four sources with precedence,
lowest to highest, built-in defaults < mixin < declarative (template) <
caller — each generic entry of the result is the caller value when present,
else the declarative one, else the mixin one, else the default; and for
defaults `{a:1, b:1}`, mixin `{b:2}`, declarative `{c:3}`, caller `{a:9}`
the effective configuration maps `a` to 9, `b` to 2 and `c` to 3. -/
theorem prepareParams_precedence :
    (∀ dflt tmpl user mixin : ParamsObj,
      (prepareParams dflt tmpl user mixin).a =
        jsOverride (jsOverride (jsOverride dflt.a mixin.a) tmpl.a) user.a ∧
      (prepareParams dflt tmpl user mixin).b =
        jsOverride (jsOverride (jsOverride dflt.b mixin.b) tmpl.b) user.b ∧
      (prepareParams dflt tmpl user mixin).c =
        jsOverride (jsOverride (jsOverride dflt.c mixin.c) tmpl.c) user.c) ∧
    (prepareParams { a := some 1, b := some 1 } { c := some 3 }
        { a := some 9 } { b := some 2 }).a = some 9 ∧
    (prepareParams { a := some 1, b := some 1 } { c := some 3 }
        { a := some 9 } { b := some 2 }).b = some 2 ∧
    (prepareParams { a := some 1, b := some 1 } { c := some 3 }
        { a := some 9 } { b := some 2 }).c = some 3 := by
  refine ⟨?_, by decide, by decide, by decide⟩
  intro dflt tmpl user mixin
  refine ⟨?_, ?_, ?_⟩ <;>
    · simp only [prepareParams, objectAssignParams, List.foldl]
      split <;> simp [ParamsObj.assign, jsOverride_none_left]

/-- C5: whenever the merged `animation` flag is literally `false`, the
prepared configuration has `showClass` equal to the single-key object
`{ backdrop: "swal2-noanimation" }` and `hideClass` equal to the empty
object, regardless of the showClass/hideClass values supplied by default,
mixin, declarative or caller configuration. -/
theorem prepareParams_animation_false_forces_classes
    (dflt tmpl user mixin : ParamsObj)
    (h : (prepareParams dflt tmpl user mixin).animation = some false) :
    (prepareParams dflt tmpl user mixin).showClass =
      some { backdrop := some "swal2-noanimation" } ∧
    (prepareParams dflt tmpl user mixin).hideClass = some ({} : SubObj) := by
  simp only [prepareParams] at h ⊢
  split at h <;> split <;> simp_all

theorem prepareParams_animation_false_forces_classes_witness :
    (prepareParams { showClass := some { popup := some "d" } } {}
        { animation := some false, showClass := some { icon := some "u" },
          hideClass := some { popup := some "v" } }
        { hideClass := some { backdrop := some "m" } }).animation =
      some false ∧
    ((prepareParams { showClass := some { popup := some "d" } } {}
        { animation := some false, showClass := some { icon := some "u" },
          hideClass := some { popup := some "v" } }
        { hideClass := some { backdrop := some "m" } }).showClass =
      some { backdrop := some "swal2-noanimation" } ∧
    (prepareParams { showClass := some { popup := some "d" } } {}
        { animation := some false, showClass := some { icon := some "u" },
          hideClass := some { popup := some "v" } }
        { hideClass := some { backdrop := some "m" } }).hideClass =
      some ({} : SubObj)) :=
  ⟨rfl, prepareParams_animation_false_forces_classes _ _ _ _ rfl⟩

/-- C6: the button step tries `focusDeny`, then `focusCancel`, then
`focusConfirm`, each gated on that button being visible; the first match
receives focus and stops the chain, and when no directive-and-visibility
pair matches nothing is focused. In particular, with `focusDeny` set and
both deny and confirm buttons visible, the deny button receives focus even
when `focusConfirm` is also set. -/
theorem focusButton_order (p : ParamsObj) (vis : ButtonsVisible) :
    (truthy p.focusDeny = true → vis.deny = true →
      focusButton p vis = some .denyButton) ∧
    ((truthy p.focusDeny && vis.deny) = false → truthy p.focusCancel = true →
      vis.cancel = true → focusButton p vis = some .cancelButton) ∧
    ((truthy p.focusDeny && vis.deny) = false →
      (truthy p.focusCancel && vis.cancel) = false →
      truthy p.focusConfirm = true → vis.confirm = true →
      focusButton p vis = some .confirmButton) ∧
    ((truthy p.focusDeny && vis.deny) = false →
      (truthy p.focusCancel && vis.cancel) = false →
      (truthy p.focusConfirm && vis.confirm) = false →
      focusButton p vis = none) ∧
    (p.focusDeny = some true → p.focusConfirm = some true → vis.deny = true →
      vis.confirm = true → focusButton p vis = some .denyButton) := by
  refine ⟨?_, ?_, ?_, ?_, ?_⟩
  · intro h1 h2
    simp [focusButton, h1, h2]
  · intro h1 h2 h3
    simp [focusButton, h1, h2, h3]
  · intro h1 h2 h3 h4
    simp [focusButton, h1, h2, h3, h4]
  · intro h1 h2 h3
    simp [focusButton, h1, h2, h3]
  · intro h1 h2 h3 h4
    simp [focusButton, truthy, h1, h2, h3, h4]

theorem focusButton_order_witness :
    focusButton { focusDeny := some true, focusConfirm := some true }
      ⟨true, false, true⟩ = some .denyButton ∧
    focusButton ({} : ParamsObj) ⟨true, true, true⟩ = none :=
  ⟨(focusButton_order { focusDeny := some true, focusConfirm := some true }
      ⟨true, false, true⟩).2.2.2.2 rfl rfl rfl rfl,
   (focusButton_order ({} : ParamsObj) ⟨true, true, true⟩).2.2.2.1 rfl rfl rfl⟩

theorem focusAutofocusLoop_first (pre : List AutofocusNode)
    (el : AutofocusNode) (rest : List AutofocusNode) (i : Nat)
    (hpre : ∀ x ∈ pre, x.eligible = false) (hel : el.eligible = true) :
    focusAutofocusLoop (pre ++ el :: rest) i = some (i + pre.length) := by
  induction pre generalizing i with
  | nil => simp [focusAutofocusLoop, hel]
  | cons x xs ih =>
    have hx : x.eligible = false := hpre x (by simp)
    have hxs : ∀ y ∈ xs, y.eligible = false := fun y hy => hpre y (by simp [hy])
    have hstep : focusAutofocusLoop ((x :: xs) ++ el :: rest) i =
        focusAutofocusLoop (xs ++ el :: rest) (i + 1) := by
      simp [focusAutofocusLoop, hx]
    rw [hstep, ih (i + 1) hxs]
    congr 1
    simp only [List.length_cons]
    omega

/-- C7: focus acquisition follows the fixed fallback chain of `initFocus`:
a toast focuses nothing; otherwise a falsy `allowEnterKey` blurs the active
element and stops; otherwise the first autofocus node that is a visible
`HTMLElement` is focused; otherwise the focus-directive buttons are tried;
otherwise the first focusable element of the popup is focused, or nothing
happens when none exists. -/
theorem initFocus_chain (p : ParamsObj) (nodes : List AutofocusNode)
    (vis : ButtonsVisible) (hasFocusable : Bool) :
    (truthy p.toast = true →
      initFocus p nodes vis hasFocusable = .noFocusSteal) ∧
    (truthy p.toast = false → truthy p.allowEnterKey = false →
      initFocus p nodes vis hasFocusable = .blurredActive) ∧
    (∀ pre el rest, truthy p.toast = false → truthy p.allowEnterKey = true →
      nodes = pre ++ el :: rest → (∀ x ∈ pre, x.eligible = false) →
      el.eligible = true →
      initFocus p nodes vis hasFocusable = .autofocusNode pre.length) ∧
    (∀ t, truthy p.toast = false → truthy p.allowEnterKey = true →
      focusAutofocus nodes = none → focusButton p vis = some t →
      initFocus p nodes vis hasFocusable = .buttonFocused t) ∧
    (truthy p.toast = false → truthy p.allowEnterKey = true →
      focusAutofocus nodes = none → focusButton p vis = none →
      hasFocusable = true →
      initFocus p nodes vis hasFocusable = .firstFocusable) ∧
    (truthy p.toast = false → truthy p.allowEnterKey = true →
      focusAutofocus nodes = none → focusButton p vis = none →
      hasFocusable = false →
      initFocus p nodes vis hasFocusable = .noFocusableNoOp) := by
  refine ⟨?_, ?_, ?_, ?_, ?_, ?_⟩
  · intro h1
    simp [initFocus, h1]
  · intro h1 h2
    simp [initFocus, h1, h2]
  · intro pre el rest h1 h2 hn hpre hel
    have haf : focusAutofocus nodes = some pre.length := by
      rw [hn, focusAutofocus, focusAutofocusLoop_first pre el rest 0 hpre hel]
      simp
    simp [initFocus, h1, h2, haf]
  · intro t h1 h2 h3 h4
    simp [initFocus, h1, h2, h3, h4]
  · intro h1 h2 h3 h4 h5
    simp [initFocus, setFocusModel, h1, h2, h3, h4, h5]
  · intro h1 h2 h3 h4 h5
    simp [initFocus, setFocusModel, h1, h2, h3, h4, h5]

theorem initFocus_chain_witness :
    initFocus { toast := some true } [] ⟨false, false, false⟩ false =
      .noFocusSteal ∧
    initFocus { allowEnterKey := some true }
      [⟨false, true⟩, ⟨true, true⟩] ⟨false, false, false⟩ false =
      .autofocusNode 1 ∧
    initFocus { allowEnterKey := some true } [] ⟨false, false, false⟩ false =
      .noFocusableNoOp :=
  ⟨(initFocus_chain { toast := some true } [] ⟨false, false, false⟩ false).1 rfl,
   (initFocus_chain { allowEnterKey := some true }
      [⟨false, true⟩, ⟨true, true⟩] ⟨false, false, false⟩ false).2.2.1
      [⟨false, true⟩] ⟨true, true⟩ [] rfl rfl rfl (by decide) rfl,
   (initFocus_chain { allowEnterKey := some true } []
      ⟨false, false, false⟩ false).2.2.2.2.2 rfl rfl rfl rfl rfl⟩

/-- C8 counterexample: `Object.freeze(innerParams)` at line 72 is shallow,
so after attaching a prepared configuration the nested `showClass`
sub-object CAN be mutated in place by a subsequent property write — the
write changes the attached configuration, refuting the deep-freeze claim. -/
theorem innerParams_nested_mutation_succeeds :
    trySetShowClassBackdrop
      (attachInnerParams
        (prepareParams {} {} { animation := some true, showClass := some { popup := some "p" } } {}))
      (some "mutated") ≠
    attachInnerParams
      (prepareParams {} {} { animation := some true, showClass := some { popup := some "p" } } {}) := by
  decide

/-- C8 amended: after parameter preparation the configuration object itself
is frozen (shallow `Object.freeze`), so writes to its own properties are
ignored; its nested `showClass`/`hideClass` sub-objects are not frozen and
in-place writes to them take effect; re-configuration (`update`, modelled
from the spec) attaches a freshly merged object instead of writing through
the old one. -/
theorem innerParams_shallow_frozen (inner : ParamsObj) :
    (attachInnerParams inner).topFrozen = true ∧
    (∀ v, trySetAnimation (attachInnerParams inner) v =
      attachInnerParams inner) ∧
    (attachInnerParams inner).showClassObjFrozen = false ∧
    (attachInnerParams inner).hideClassObjFrozen = false ∧
    (∀ sc v, inner.showClass = some sc →
      (trySetShowClassBackdrop (attachInnerParams inner) v).params.showClass =
        some { sc with backdrop := v }) ∧
    (∀ patch, (specUpdate (attachInnerParams inner) patch).params =
      ParamsObj.assign inner patch) := by
  refine ⟨rfl, fun v => rfl, rfl, rfl, ?_, fun patch => rfl⟩
  intro sc v hsc
  simp [attachInnerParams, objectFreeze, trySetShowClassBackdrop, hsc]

theorem innerParams_shallow_frozen_witness :
    (ParamsObj.mk none none none none none none none none none none none
        (some { popup := some "p" }) none).showClass =
      some { popup := some "p" } ∧
    (trySetShowClassBackdrop
      (attachInnerParams { showClass := some { popup := some "p" } })
      (some "w")).params.showClass =
      some { popup := some "p", backdrop := some "w" } :=
  ⟨rfl, (innerParams_shallow_frozen
      { showClass := some { popup := some "p" } }).2.2.2.2.1
    { popup := some "p" } (some "w") rfl⟩

/-- C9 counterexample: after the open instance closes — clearing
`globalState.currentInstance`, so no instance is open — a static facade
call still forwards to the closed instance through the module-level
`currentInstance` variable instead of returning null. -/
theorem staticProxy_not_null_when_none_open :
    (closeCurrentStep (constructStep 1 ⟨none, none⟩)).globalCurrentInstance =
      none ∧
    staticProxyCall (closeCurrentStep (constructStep 1 ⟨none, none⟩)) true =
      .forwarded 1 := by
  decide

/-- C9 amended: a static facade call forwards its arguments to the most
recently constructed instance — the module-level `currentInstance`
variable, which closing does not clear — whenever one exists and has the
method, returning the result of that method; it returns null only when no
instance was ever constructed or the method is missing, not whenever no
instance is open. -/
theorem staticProxy_forwards_module_current (s : FacadeState)
    (hasMethod : Bool) :
    (s.moduleCurrentInstance = none →
      staticProxyCall s hasMethod = .nullResult) ∧
    (hasMethod = false → staticProxyCall s hasMethod = .nullResult) ∧
    (∀ i, s.moduleCurrentInstance = some i → hasMethod = true →
      staticProxyCall s hasMethod = .forwarded i) := by
  refine ⟨?_, ?_, ?_⟩
  · intro h1
    simp [staticProxyCall, h1]
  · intro h1
    cases hm : s.moduleCurrentInstance <;> simp [staticProxyCall, hm, h1]
  · intro i h1 h2
    simp [staticProxyCall, h1, h2]

theorem staticProxy_forwards_module_current_witness :
    (FacadeState.mk (some 5) none).moduleCurrentInstance = some 5 ∧
    staticProxyCall ⟨some 5, none⟩ true = .forwarded 5 :=
  ⟨rfl, (staticProxy_forwards_module_current ⟨some 5, none⟩ true).2.2 5 rfl rfl⟩

theorem timerTick_armed (d k : Nat) (h : k + 1 < d) :
    timerTick (armedState d k) = armedState d (k + 1) := by
  have h1 : ¬(d - k ≤ 1) := by omega
  have h2 : d - k - 1 = d - (k + 1) := by omega
  simp [timerTick, armedState, h1, h2]

theorem timerTick_armed_fires (d : Nat) (hd : 0 < d) :
    timerTick (armedState d (d - 1)) = firedState d d := by
  have h1 : d - (d - 1) ≤ 1 := by omega
  have h2 : d - 1 + 1 = d := by omega
  simp [timerTick, armedState, firedState, dismissWith, h1, h2]

theorem timerTick_fired (d m : Nat) :
    timerTick (firedState d m) = firedState d (m + 1) := by
  simp [timerTick, firedState]

theorem runTicks_fired (d m n : Nat) :
    runTicks (firedState d m) n = firedState d (m + n) := by
  induction n generalizing m with
  | zero => rfl
  | succ n ih =>
    show runTicks (timerTick (firedState d m)) n = _
    rw [timerTick_fired, ih]
    congr 1
    omega

theorem runTicks_armed (d : Nat) (hd : 0 < d) (n : Nat) :
    ∀ k, k < d →
      runTicks (armedState d k) n =
        if k + n < d then armedState d (k + n) else firedState d (k + n) := by
  induction n with
  | zero =>
    intro k hk
    simp [runTicks, hk]
  | succ n ih =>
    intro k hk
    by_cases h2 : k + 1 < d
    · show runTicks (timerTick (armedState d k)) n = _
      rw [timerTick_armed d k h2, ih (k + 1) h2]
      have e1 : k + 1 + n = k + (n + 1) := by omega
      rw [e1]
    · have hk1 : k = d - 1 := by omega
      show runTicks (timerTick (armedState d k)) n = _
      rw [hk1, timerTick_armed_fires d hd, runTicks_fired]
      have e2 : ¬(d - 1 + (n + 1) < d) := by omega
      rw [if_neg e2]
      congr 1
      omega

/-- C3: with a positive `timer` option and no user interaction, once the
configured duration has elapsed the result is settled with
`{ isDismissed: true, dismiss: "timer" }`, the settlement time is at or
after the configured duration, and the timer callback ran exactly once. -/
theorem timer_settles_result_once (d n : Nat) (hd : 0 < d) (hn : d ≤ n) :
    (runTicks (openWithTimer d) n).settled =
      some { isDismissed := true, dismiss := some .timer } ∧
    (runTicks (openWithTimer d) n).callbackRuns = 1 ∧
    ∃ t, (runTicks (openWithTimer d) n).settledAt = some t ∧ d ≤ t := by
  have hd0 : d ≠ 0 := by omega
  have ho : openWithTimer d = armedState d 0 := by
    simp [openWithTimer, setupTimer, armedState, hd0]
  rw [ho, runTicks_armed d hd n 0 hd]
  have hnd : ¬(0 + n < d) := by omega
  rw [if_neg hnd]
  exact ⟨rfl, rfl, d, rfl, le_refl d⟩

theorem timer_settles_result_once_witness :
    0 < 2 ∧ 2 ≤ 5 ∧
    ((runTicks (openWithTimer 2) 5).settled =
      some { isDismissed := true, dismiss := some .timer } ∧
    (runTicks (openWithTimer 2) 5).callbackRuns = 1 ∧
    ∃ t, (runTicks (openWithTimer 2) 5).settledAt = some t ∧ 2 ≤ t) :=
  ⟨by decide, by decide, timer_settles_result_once 2 5 (by decide) (by decide)⟩

end IoModal
